import Mathlib

/-!
Verification development for the `my-credentials-mcp` HTTP gateway
(`mcp-api-wrapper/server.js`) and its legacy security module
(`tests/old-src/security.ts`).

The JavaScript deny-list patterns are regular expressions; we embed them
with a small regular-expression AST and a Brzozowski-derivative matcher
over `List Char`, mirroring JS regex semantics for the constructs the
source uses: `.` matches anything but a line terminator, `\s` is the
whitespace class, `\b` is a word boundary, the `i` flag is implemented by
matching against the lowercased subject (all pattern literals in the
source are lowercase ASCII), and `RegExp.test` is unanchored search.
-/

namespace MCP

/-- The JS regex line terminators (`\n`, `\r`, U+2028, U+2029), via code points. -/
def jsNL (c : Char) : Bool :=
  c.toNat == 10 || c.toNat == 13 || c.toNat == 0x2028 || c.toNat == 0x2029

/-- The JS regex class `\s` (the portion relevant to ASCII subjects). -/
def jsWS (c : Char) : Bool :=
  c == ' ' || c == '\t' || c == '\n' || c == '\r' || c == '\x0b' || c == '\x0c'

/-- The JS regex dot without the `s` flag: any character except a line terminator. -/
def jsDot (c : Char) : Bool := !jsNL c

/-- The JS regex class `\w`, that is `[A-Za-z0-9_]`. -/
def jsWord (c : Char) : Bool := c.isAlpha || c.isDigit || c == '_'

/-- Regular expressions over `Char`, with character classes given by a
Boolean predicate. -/
inductive RE : Type
  | eps : RE
  | cls (p : Char → Bool) : RE
  | cat (r1 r2 : RE) : RE
  | alt (r1 r2 : RE) : RE
  | star (r : RE) : RE

/-- The empty (never-matching) regex. -/
def RE.void : RE := .cls fun _ => false

/-- A single literal character. -/
def chrRE (c : Char) : RE := .cls fun x => x == c

/-- A wildcard that also crosses line terminators (used to embed
unanchored search and suffix context). -/
def anyRE : RE := .cls fun _ => true

/-- The JS dot as a regex. -/
def dotRE : RE := .cls jsDot

/-- The JS class `\s` as a regex. -/
def wsRE : RE := .cls jsWS

/-- Repetition `r+` as `r r*`. -/
def plusRE (r : RE) : RE := .cat r (.star r)

/-- The literal word regex for a list of characters. -/
def strREL : List Char → RE
  | [] => .eps
  | c :: cs => .cat (chrRE c) (strREL cs)

/-- The literal word regex for a string. -/
def strRE (s : String) : RE := strREL s.data

/-- Does the regex accept the empty word? -/
def nullable : RE → Bool
  | .eps => true
  | .cls _ => false
  | .cat r1 r2 => nullable r1 && nullable r2
  | .alt r1 r2 => nullable r1 || nullable r2
  | .star _ => true

/-- Brzozowski derivative of a regex by a character. -/
def deriv : RE → Char → RE
  | .eps, _ => RE.void
  | .cls p, c => if p c then .eps else RE.void
  | .cat r1 r2, c =>
      if nullable r1 then .alt (.cat (deriv r1 c) r2) (deriv r2 c)
      else .cat (deriv r1 c) r2
  | .alt r1 r2, c => .alt (deriv r1 c) (deriv r2 c)
  | .star r, c => .cat (deriv r c) (.star r)

/-- Full-match of a regex against a word, by iterated derivatives. -/
def matchL (r : RE) : List Char → Bool
  | [] => nullable r
  | c :: s => matchL (deriv r c) s

/-- Unanchored search (JS `RegExp.prototype.test`): some substring matches. -/
def reTest (r : RE) (s : List Char) : Bool :=
  matchL (.cat (.star anyRE) (.cat r (.star anyRE))) s

/-- ASCII lowercasing of a word (the effect of JS `toLowerCase` on the
ASCII subjects this development considers). -/
def lowerL (s : List Char) : List Char := s.map Char.toLower

/-- Unanchored search under the JS `i` flag: match against the lowercased
subject (every pattern literal in the source is lowercase). -/
def reTestI (r : RE) (s : List Char) : Bool := reTest r (lowerL s)

/-- The language semantics of a regex. `star` membership is stated with an
explicitly non-empty head so that inversion stays structurally simple. -/
inductive Lang : RE → List Char → Prop
  | eps : Lang .eps []
  | cls {p : Char → Bool} {c : Char} : p c = true → Lang (.cls p) [c]
  | cat {r1 r2 : RE} {u v : List Char} :
      Lang r1 u → Lang r2 v → Lang (.cat r1 r2) (u ++ v)
  | altL {r1 r2 : RE} {s : List Char} : Lang r1 s → Lang (.alt r1 r2) s
  | altR {r1 r2 : RE} {s : List Char} : Lang r2 s → Lang (.alt r1 r2) s
  | starNil {r : RE} : Lang (.star r) []
  | starCons {r : RE} {c : Char} {u v : List Char} :
      Lang r (c :: u) → Lang (.star r) v → Lang (.star r) (c :: u ++ v)

theorem nullable_of_lang_nil {r : RE} (h : Lang r []) : nullable r = true := by
  generalize hs : ([] : List Char) = l at h
  induction h with
  | eps => rfl
  | cls _ => simp at hs
  | cat _ _ ih1 ih2 =>
      rcases List.append_eq_nil.mp hs.symm with ⟨h1, h2⟩
      simp [nullable, ih1 h1.symm, ih2 h2.symm]
  | altL _ ih => simp [nullable, ih hs]
  | altR _ ih => simp [nullable, ih hs]
  | starNil => rfl
  | starCons _ _ _ _ => simp at hs

theorem lang_deriv {r : RE} {c : Char} {s : List Char}
    (h : Lang r (c :: s)) : Lang (deriv r c) s := by
  generalize hl : (c :: s) = l at h
  induction h generalizing c s with
  | eps => simp at hl
  | cls hp =>
      injection hl with h1 h2
      subst h1; subst h2
      simp only [deriv, hp, if_true]
      exact Lang.eps
  | cat h1 h2 ih1 ih2 =>
      rename_i r1 r2 u v
      cases u with
      | nil =>
          simp only [List.nil_append] at hl
          have hn := nullable_of_lang_nil h1
          simp only [deriv, hn, if_true]
          exact Lang.altR (ih2 hl)
      | cons a u' =>
          rw [List.cons_append] at hl
          injection hl with hc hs
          subst hc; subst hs
          by_cases hn : nullable r1 = true
          · simp only [deriv, hn, if_true]
            exact Lang.altL (Lang.cat (ih1 rfl) h2)
          · simp only [deriv, hn, if_false]
            exact Lang.cat (ih1 rfl) h2
  | altL _ ih =>
      subst hl
      exact Lang.altL (ih rfl)
  | altR _ ih =>
      subst hl
      exact Lang.altR (ih rfl)
  | starNil => simp at hl
  | starCons h1 h2 ih1 _ =>
      rename_i r' c' u v
      rw [List.cons_append] at hl
      injection hl with hc hs
      subst hc; subst hs
      exact Lang.cat (ih1 rfl) h2

/-- The matcher accepts every word in the language of the regex. -/
theorem matchL_complete : ∀ (s : List Char) (r : RE), Lang r s → matchL r s = true
  | [], _, h => nullable_of_lang_nil h
  | _ :: s, _, h => matchL_complete s _ (lang_deriv h)

/-- Constructor `Lang.cat` with the split of the word given as an equation. -/
theorem lang_cat_split {r1 r2 : RE} {u v l : List Char}
    (h1 : Lang r1 u) (h2 : Lang r2 v) (he : u ++ v = l) :
    Lang (.cat r1 r2) l := he ▸ Lang.cat h1 h2

/-- A word all of whose characters satisfy `p` is in `(cls p)*`. -/
theorem lang_star_cls {p : Char → Bool} :
    ∀ {l : List Char}, (∀ c ∈ l, p c = true) → Lang (.star (.cls p)) l
  | [], _ => Lang.starNil
  | c :: t, h =>
      Lang.starCons (u := [])
        (Lang.cls (h c (List.mem_cons_self c t)))
        (lang_star_cls fun x hx => h x (List.mem_cons_of_mem c hx))

/-- Every word is accepted by the unrestricted wildcard star. -/
theorem lang_star_any (l : List Char) : Lang (.star anyRE) l :=
  lang_star_cls fun _ _ => rfl

/-- A literal word regex accepts that word (membership direction). -/
theorem lang_strREL : ∀ (l : List Char), Lang (strREL l) l
  | [] => Lang.eps
  | c :: t =>
      lang_cat_split (u := [c]) (Lang.cls (by simp [chrRE])) (lang_strREL t) rfl

/-- Substring containment (JS `String.prototype.includes`). -/
def containsSub (p : List Char) : List Char → Bool
  | [] => p.isEmpty
  | c :: t => p.isPrefixOf (c :: t) || containsSub p t

/-- Characters removed by JS `String.prototype.trim` (whitespace and line
terminators; the portion relevant to ASCII subjects). -/
def jsTrimmable (c : Char) : Bool := jsWS c || jsNL c

/-- JS `String.prototype.trim`. -/
def jsTrimL (s : List Char) : List Char :=
  ((s.dropWhile jsTrimmable).reverse.dropWhile jsTrimmable).reverse

/-!
## The gateway (`mcp-api-wrapper/server.js`)

Namespace `Server` embeds the security helpers and the two statement
endpoints of the Express server.
-/

namespace Server

/-- The shape shared by three entries of the gateway deny-list:
the pattern `;.*KW\s+` (i flag) — a statement separator, same-line filler, the keyword,
then at least one whitespace character. -/
def chainRE (kw : String) : RE :=
  .cat (chrRE ';') (.cat (.star dotRE) (.cat (strRE kw) (plusRE wsRE)))

/-- Pattern `;.*delete.*where\s+1\s*=\s*1` (i flag). -/
def delete11RE : RE :=
  .cat (chrRE ';') (.cat (.star dotRE) (.cat (strRE "delete")
    (.cat (.star dotRE) (.cat (strRE "where") (.cat (plusRE wsRE)
      (.cat (chrRE '1') (.cat (.star wsRE) (.cat (chrRE '=')
        (.cat (.star wsRE) (chrRE '1'))))))))))

/-- Pattern matching a block comment: slash-star, same-line filler,
star-slash (no flags). -/
def blockCommentRE : RE :=
  .cat (strRE "/*") (.cat (.star dotRE) (strRE "*/"))

/-- Pattern `--.*$` with the m flag, as an unanchored search: a double
dash followed by same-line filler reaching the end of the subject or a
line terminator. -/
def lineCommentTest (s : List Char) : Bool :=
  matchL (.cat (.star anyRE) (.cat (strRE "--") (.cat (.star dotRE)
    (.alt .eps (.cat (.cls jsNL) (.star anyRE)))))) s

/-- Pattern `union.*select` (i flag). -/
def unionSelectRE : RE :=
  .cat (strRE "union") (.cat (.star dotRE) (strRE "select"))

/-- Pattern `exec\s*\(` (i flag). -/
def execCallRE : RE :=
  .cat (strRE "exec") (.cat (.star wsRE) (chrRE '('))

/-- The loop body of `validateSqlQuery` in `server.js`: does any of the
nine `dangerousPatterns` match the subject? -/
def dangerousFound (s : List Char) : Bool :=
  reTestI (chainRE "drop") s ||
  reTestI delete11RE s ||
  reTestI (chainRE "truncate") s ||
  reTestI (chainRE "alter") s ||
  reTest blockCommentRE s ||
  lineCommentTest s ||
  reTestI unionSelectRE s ||
  reTestI execCallRE s ||
  reTestI (strRE "sp_") s

/-- Function `validateSqlQuery` from `server.js`, as its `isValid` field: `true`
iff no deny-list pattern matches. (The JS record's `error` string names
the matched pattern; the endpoints only branch on `isValid`, which is
what the claims inspect, so the reason text is represented by the
rejection kind in the endpoint model below.) -/
def validateSqlQuery (sql : String) : Bool := !dangerousFound sql.data

/-- The computation `sql.trim().toLowerCase()` used by `isWriteOperation`. -/
def trimLower (sql : String) : List Char := lowerL (jsTrimL sql.data)

/-- Function `isWriteOperation` from `server.js`: the trimmed, lowercased statement
starts with one of seven keywords (note: no `grant`, no `revoke`). -/
def isWriteOperation (sql : String) : Bool :=
  ["insert", "update", "delete", "create", "drop", "alter", "truncate"].any
    fun k => k.data.isPrefixOf (trimLower sql)

/-- Function `formatDatabaseError` from `server.js`, on the driver error's
`message` string. The fallback returns the full message. -/
def formatDatabaseError (msg : String) : String :=
  if containsSub "password".data msg.data then
    "Database authentication failed. Please check credentials."
  else if containsSub "timeout".data msg.data then
    "Database connection timed out. Please try again."
  else if containsSub "does not exist".data msg.data then
    "Database table or column does not exist."
  else "Database error: " ++ msg

end Server

/-!
## The legacy module (`tests/old-src/security.ts`)
-/

namespace Legacy

/-- Class `[^\w]`: a character failing JS `\w`. -/
def nonWordRE : RE := .cls fun c => !jsWord c

/-- The left context of an unanchored `\b` before a word character:
either the match starts the subject or a non-word character precedes it. -/
def leftBdry : RE := .alt .eps (.cat (.star anyRE) nonWordRE)

/-- The right context of `\b` after a word character: either the subject
ends or a non-word character follows. -/
def rightBdry : RE := .alt .eps (.cat nonWordRE (.star anyRE))

/-- Search for `\bW\b`, as a full-subject regex (unanchored search built in). -/
def wordTest (w : String) (s : List Char) : Bool :=
  matchL (.cat leftBdry (.cat (strRE w) rightBdry)) s

/-- Search for `\bW`, as a full-subject regex (unanchored search built in). -/
def wordStartTest (w : String) (s : List Char) : Bool :=
  matchL (.cat leftBdry (.cat (strRE w) (.star anyRE))) s

/-- Pattern `;\s*KW\s+` (i flag), the shape shared by six legacy deny-list entries. -/
def chainWsRE (kw : String) : RE :=
  .cat (chrRE ';') (.cat (.star wsRE) (.cat (strRE kw) (plusRE wsRE)))

/-- Pattern `;\s*delete\s+.*\s+where\s+1\s*=\s*1` (i flag). -/
def delete11RE : RE :=
  .cat (chrRE ';') (.cat (.star wsRE) (.cat (strRE "delete")
    (.cat (plusRE wsRE) (.cat (.star dotRE) (.cat (plusRE wsRE)
      (.cat (strRE "where") (.cat (plusRE wsRE) (.cat (chrRE '1')
        (.cat (.star wsRE) (.cat (chrRE '=') (.cat (.star wsRE)
          (chrRE '1'))))))))))))

/-- Pattern matching a double dash, same-line filler, then drop (i flag). -/
def lineCommentDropRE : RE :=
  .cat (strRE "--") (.cat (.star dotRE) (strRE "drop"))

/-- Pattern matching slash-star, filler, drop, filler, star-slash (i flag). -/
def blockCommentDropRE : RE :=
  .cat (strRE "/*") (.cat (.star dotRE) (.cat (strRE "drop")
    (.cat (.star dotRE) (strRE "*/"))))

/-- Does any of the sixteen legacy `dangerousPatterns` match the subject?
All sixteen carry the `i` flag; the word-boundary ones are searched on the
lowercased subject directly. -/
def dangerousFound (s : List Char) : Bool :=
  reTestI (chainWsRE "drop") s ||
  reTestI delete11RE s ||
  reTestI (chainWsRE "truncate") s ||
  reTestI (chainWsRE "alter") s ||
  reTestI (chainWsRE "grant") s ||
  reTestI (chainWsRE "revoke") s ||
  reTestI Server.unionSelectRE s ||
  wordTest "exec" (lowerL s) ||
  wordTest "execute" (lowerL s) ||
  wordStartTest "sp_" (lowerL s) ||
  wordStartTest "xp_" (lowerL s) ||
  wordTest "msdb" (lowerL s) ||
  reTestI (strRE "information_schema") s ||
  reTestI (strRE "pg_catalog") s ||
  reTestI lineCommentDropRE s ||
  reTestI blockCommentDropRE s

/-- Function `validateSqlQuery` from `security.ts`, as its `isValid` field. The
leading guard rejects the empty string (`!sql`); the non-string arm of
`typeof sql !== 'string'` is outside a `String`-typed model. -/
def validateSqlQuery (sql : String) : Bool :=
  if sql = "" then false else !dangerousFound sql.data

/-- Function `isWriteOperation` from `security.ts`: nine keywords, including
`grant` and `revoke`. -/
def isWriteOperation (sql : String) : Bool :=
  ["insert", "update", "delete", "create", "drop", "alter", "truncate",
   "grant", "revoke"].any
    fun k => k.data.isPrefixOf (Server.trimLower sql)

/-- Function `formatDatabaseError` from `security.ts` on an `Error` message (the
non-`Error` arm returns a fixed string and is not reachable from a
`String`-typed message). The fallback truncates to 200 characters. -/
def formatDatabaseError (msg : String) : String :=
  if containsSub "password".data msg.data then
    "Database authentication failed. Please check credentials."
  else if containsSub "timeout".data msg.data then
    "Database connection timed out. Please try again."
  else if containsSub "connection".data msg.data then
    "Database connection error. Please check network connectivity."
  else if containsSub "permission".data msg.data then
    "Insufficient database permissions for this operation."
  else "Database error: " ++ String.mk (msg.data.take 200)

end Legacy

/-!
## The statement endpoints of the gateway

The two POST handlers are modelled as functions of the request body
fields (`sql`, `username`, each possibly absent) and of the outcome the
pooled client would produce for the statement. The `executed` flag
records whether the statement text was forwarded to the client
(`client.query(sql)` reached), and `logs` records the `console` lines the
request produces: the request-logging middleware line, the per-execution
success line, and the `console.error` line of the catch block.
-/

namespace Server

/-- The outcome `client.query(sql)` would produce for this request:
a row set with its row count, or a thrown driver error message. -/
inductive ExecOutcome : Type
  | ok (rowCount : Nat)
  | err (message : String)
deriving DecidableEq

/-- Which guard produced an unsuccessful response (standing in for the
constant part of the JSON `error` string returned at each rejection). -/
inductive RejectKind : Type
  | missingSql
  | missingUsername
  | notPrivileged
  | invalidSql
  | writeNotAllowed
  | dbError
deriving DecidableEq

/-- One `console` line attributable to a single request. -/
inductive LogEvent : Type
  | entry
  | execSuccess (user : String)
  | failure
deriving DecidableEq

/-- An HTTP response together with the request's observable side effects. -/
structure ApiResult where
  status : Nat
  success : Bool
  reject : Option RejectKind
  errorMsg : Option String
  rowCount : Option Nat
  executedBy : Option String
  operation : Option String
  executed : Bool
  logs : List LogEvent
deriving DecidableEq

/-- JS falsiness of an optional string field (`undefined` or empty). -/
def strFalsy : Option String → Bool
  | none => true
  | some s => s = ""

/-- The default `PRIVILEGED_USERS` set parsed at startup. -/
def defaultPrivilegedUsers : List String := ["preangelleo", "coleam00"]

/-- The POST `/api/query` handler, with the request-logging middleware
line prepended to its `logs`. Guard order as in the source: missing
`sql`, then validation, then the write-classification gate, then
execution. -/
def apiQuery (sqlOpt usernameOpt : Option String) (db : ExecOutcome) :
    ApiResult :=
  if strFalsy sqlOpt then
    { status := 400, success := false, reject := some .missingSql,
      errorMsg := some "SQL query is required", rowCount := none,
      executedBy := none, operation := none, executed := false,
      logs := [.entry] }
  else if !validateSqlQuery (sqlOpt.getD "") then
    { status := 400, success := false, reject := some .invalidSql,
      errorMsg := some "Invalid SQL query: Potentially dangerous SQL pattern detected",
      rowCount := none, executedBy := none, operation := none,
      executed := false, logs := [.entry] }
  else if isWriteOperation (sqlOpt.getD "") then
    { status := 403, success := false, reject := some .writeNotAllowed,
      errorMsg := some "Write operations not allowed. Use /api/execute endpoint.",
      rowCount := none, executedBy := none, operation := none,
      executed := false, logs := [.entry] }
  else
    match db with
    | .ok n =>
        { status := 200, success := true, reject := none, errorMsg := none,
          rowCount := some n,
          executedBy := some (if strFalsy usernameOpt then "unknown"
                              else usernameOpt.getD ""),
          operation := none, executed := true,
          logs := [.entry, .execSuccess (if strFalsy usernameOpt then "unknown"
                                         else usernameOpt.getD "")] }
    | .err m =>
        { status := 500, success := false, reject := some .dbError,
          errorMsg := some (formatDatabaseError m), rowCount := none,
          executedBy := none, operation := none, executed := true,
          logs := [.entry, .failure] }

/-- The POST `/api/execute` handler, with the request-logging middleware
line prepended to its `logs`. Guard order as in the source: missing
`sql`, missing `username`, the privilege check, then validation, then
execution. (The 403 body's text names the user and, for diagnostics, the
allowed set; the claims only inspect the status and guard.) -/
def apiExecute (priv : List String) (sqlOpt usernameOpt : Option String)
    (db : ExecOutcome) : ApiResult :=
  if strFalsy sqlOpt then
    { status := 400, success := false, reject := some .missingSql,
      errorMsg := some "SQL statement is required", rowCount := none,
      executedBy := none, operation := none, executed := false,
      logs := [.entry] }
  else if strFalsy usernameOpt then
    { status := 400, success := false, reject := some .missingUsername,
      errorMsg := some "Username is required for execute operations",
      rowCount := none, executedBy := none, operation := none,
      executed := false, logs := [.entry] }
  else if !priv.contains (usernameOpt.getD "") then
    { status := 403, success := false, reject := some .notPrivileged,
      errorMsg := some ("Access denied. User " ++ usernameOpt.getD "" ++
        " does not have execute privileges."),
      rowCount := none, executedBy := none, operation := none,
      executed := false, logs := [.entry] }
  else if !validateSqlQuery (sqlOpt.getD "") then
    { status := 400, success := false, reject := some .invalidSql,
      errorMsg := some "Invalid SQL statement: Potentially dangerous SQL pattern detected",
      rowCount := none, executedBy := none, operation := none,
      executed := false, logs := [.entry] }
  else
    match db with
    | .ok n =>
        { status := 200, success := true, reject := none, errorMsg := none,
          rowCount := some n, executedBy := some (usernameOpt.getD ""),
          operation := some (if isWriteOperation (sqlOpt.getD "")
                             then "write" else "read"),
          executed := true,
          logs := [.entry, .execSuccess (usernameOpt.getD "")] }
    | .err m =>
        { status := 500, success := false, reject := some .dbError,
          errorMsg := some (formatDatabaseError m), rowCount := none,
          executedBy := none, operation := none, executed := true,
          logs := [.entry, .failure] }

end Server

/-!
## Supporting lemmas
-/

theorem jsNL_toLower (c : Char) : jsNL (Char.toLower c) = jsNL c := by
  unfold Char.toLower
  by_cases h : c.toNat ≥ 65 ∧ c.toNat ≤ 90
  · rw [if_pos h]
    obtain ⟨h1, h2⟩ := h
    interval_cases h : c.toNat <;> simp [jsNL, h]
  · rw [if_neg h]

theorem jsDot_toLower {c : Char} (h : jsDot c = true) :
    jsDot (Char.toLower c) = true := by
  unfold jsDot at h ⊢
  rw [jsNL_toLower]
  exact h

theorem lowerL_jsDot {l : List Char} (h : ∀ c ∈ l, jsDot c = true) :
    ∀ c ∈ lowerL l, jsDot c = true := by
  intro c hc
  rw [lowerL, List.mem_map] at hc
  obtain ⟨x, hx, rfl⟩ := hc
  exact jsDot_toLower (h x hx)

theorem lowerL_append (u v : List Char) :
    lowerL (u ++ v) = lowerL u ++ lowerL v := List.map_append Char.toLower u v

theorem lowerL_semi : lowerL ";".data = [';'] := by decide

theorem lowerL_space : lowerL " ".data = [' '] := by decide

theorem lang_chr (c : Char) : Lang (chrRE c) [c] := Lang.cls (by simp [chrRE])

/-- Matching lemma for the chaining deny-list entries: any subject of the
form `a ; b KW ␠ c` with `b` free of line terminators is matched by the
corresponding pattern under the i flag. -/
theorem chain_matches (kw a b c : String)
    (hb : ∀ ch ∈ b.data, jsDot ch = true)
    (hkw : lowerL kw.data = kw.data) :
    reTestI (Server.chainRE kw) (a ++ ";" ++ b ++ kw ++ " " ++ c).data = true := by
  unfold reTestI reTest
  apply matchL_complete
  refine lang_cat_split (u := lowerL a.data)
      (v := [';'] ++ (lowerL b.data ++ (kw.data ++ ([' '] ++ lowerL c.data))))
      (lang_star_any _) ?_ ?_
  · refine lang_cat_split (u := [';'] ++ (lowerL b.data ++ (kw.data ++ [' '])))
        (v := lowerL c.data) ?_ (lang_star_any _) ?_
    · unfold Server.chainRE
      refine lang_cat_split (u := [';'])
          (v := lowerL b.data ++ (kw.data ++ [' '])) (lang_chr ';') ?_ rfl
      refine lang_cat_split (u := lowerL b.data) (v := kw.data ++ [' '])
          (lang_star_cls (lowerL_jsDot hb)) ?_ rfl
      refine lang_cat_split (u := kw.data) (v := [' ']) (lang_strREL _) ?_ rfl
      exact lang_cat_split (u := [' ']) (v := [])
        (Lang.cls (by decide)) Lang.starNil rfl
    · simp [List.append_assoc]
  · have hkw' : List.map Char.toLower kw.data = kw.data := hkw
    have hsemi : Char.toLower ';' = ';' := by decide
    have hspace : Char.toLower ' ' = ' ' := by decide
    simp [String.data_append, lowerL, List.map_append, List.map_cons, hkw',
      hsemi, hspace, List.append_assoc]

/-- The nine-keyword leading-token classifier as the specification words
it (the vocabulary including `grant` and `revoke`). -/
def classifySpecWrite (sql : String) : Bool :=
  ["insert", "update", "delete", "create", "drop", "alter", "truncate",
   "grant", "revoke"].any
    fun k => k.data.isPrefixOf (Server.trimLower sql)

/-!
## Claims
-/

/-- C1: on both POST endpoints the statement text reaches the pooled
client only if the validator accepted it and (the statement is
Read-classified or the privilege check for the supplied identity
succeeded). -/
theorem c1_executed_only_if_valid_and_authorized
    (priv : List String) (sqlOpt usernameOpt : Option String)
    (db : Server.ExecOutcome) :
    ((Server.apiQuery sqlOpt usernameOpt db).executed = true →
        Server.validateSqlQuery (sqlOpt.getD "") = true ∧
          Server.isWriteOperation (sqlOpt.getD "") = false) ∧
      ((Server.apiExecute priv sqlOpt usernameOpt db).executed = true →
        Server.validateSqlQuery (sqlOpt.getD "") = true ∧
          (Server.isWriteOperation (sqlOpt.getD "") = false ∨
            priv.contains (usernameOpt.getD "") = true)) := by
  constructor <;> intro h
  · unfold Server.apiQuery at h
    repeat' split at h
    all_goals simp_all
  · unfold Server.apiExecute at h
    repeat' split at h
    all_goals simp_all

theorem c1_witness :
    Server.validateSqlQuery "select 1" = true ∧
      (Server.isWriteOperation "select 1" = false ∨
        ["bob"].contains "bob" = true) :=
  (c1_executed_only_if_valid_and_authorized ["bob"] (some "select 1")
    (some "bob") (.ok 1)).2 (by decide)

/-- C2 counterexample: this statement's leading keyword is `grant`, which
the claim's vocabulary contains, yet the gateway classifier returns Read
— so the classifier does not agree with the nine-keyword contract. -/
theorem c2_counterexample :
    ¬ (Server.isWriteOperation "grant all on credentials to intern" =
        classifySpecWrite "grant all on credentials to intern") := by decide

/-- C2 amended: the legacy classifier realises the nine-keyword
vocabulary; the gateway classifier omits exactly `grant` and `revoke`,
so it reports Write precisely when the legacy classifier does on a
statement not led by `grant` or `revoke`. -/
theorem c2_amended_write_vocabulary (sql : String) :
    Legacy.isWriteOperation sql =
      (Server.isWriteOperation sql ||
        "grant".data.isPrefixOf (Server.trimLower sql) ||
        "revoke".data.isPrefixOf (Server.trimLower sql)) := by
  unfold Legacy.isWriteOperation Server.isWriteOperation
  simp [List.any_cons, List.any_nil, Bool.or_assoc]

/-- C3 counterexample: a statement separator followed by the destructive
keyword `grant` passes the gateway validator, because the gateway
deny-list (unlike the legacy one) has no pattern for `grant` or
`revoke` chaining. -/
theorem c3_counterexample :
    containsSub "; grant ".data "select 1; grant all on t to u".data = true ∧
      Server.validateSqlQuery "select 1; grant all on t to u" = true := by decide

/-- C3 amended: the gateway validator rejects, for every identity, every
statement in which a separator is followed on the same line by `drop`,
`truncate` or `alter` with trailing whitespace; `grant` and `revoke`
chains are not screened by the gateway. -/
theorem c3_amended_separator_chaining (a b c k : String)
    (hb : ∀ ch ∈ b.data, jsDot ch = true)
    (hk : k = "drop" ∨ k = "truncate" ∨ k = "alter") :
    Server.validateSqlQuery (a ++ ";" ++ b ++ k ++ " " ++ c) = false := by
  have hkw : lowerL k.data = k.data := by
    rcases hk with rfl | rfl | rfl <;> decide
  have hm := chain_matches k a b c hb hkw
  unfold Server.validateSqlQuery Server.dangerousFound
  rcases hk with rfl | rfl | rfl <;>
    simp only [hm, Bool.true_or, Bool.or_true, Bool.not_true]

theorem c3_amended_witness :
    Server.validateSqlQuery
        ("select 1" ++ ";" ++ " " ++ "drop" ++ " " ++ "table t") = false :=
  c3_amended_separator_chaining "select 1" " " "table t" "drop"
    (by decide) (Or.inl rfl)

/-- C4 counterexample: a valid Read statement submitted to
`/api/execute` by the non-privileged identity `alice` is denied with 403
and never executed, refuting the claim that every endpoint lets valid
Read statements through for any non-empty identity. -/
theorem c4_counterexample :
    Server.validateSqlQuery "select 1" = true ∧
      Server.isWriteOperation "select 1" = false ∧
      (Server.apiExecute Server.defaultPrivilegedUsers (some "select 1")
          (some "alice") (.ok 1)).status = 403 ∧
      (Server.apiExecute Server.defaultPrivilegedUsers (some "select 1")
          (some "alice") (.ok 1)).executed = false := by decide

/-- C4 amended: on `/api/query` a valid Read statement executes for any
identity (even an absent one); on `/api/execute` the privilege gate
applies to every statement, Read included, so a non-privileged identity
is always denied with 403 there. -/
theorem c4_amended_read_execution (sql : String) (usernameOpt : Option String)
    (db : Server.ExecOutcome) (priv : List String) (u : String) :
    (sql ≠ "" → Server.validateSqlQuery sql = true →
        Server.isWriteOperation sql = false →
        (Server.apiQuery (some sql) usernameOpt db).executed = true) ∧
      (sql ≠ "" → u ≠ "" → priv.contains u = false →
        (Server.apiExecute priv (some sql) (some u) db).status = 403 ∧
          (Server.apiExecute priv (some sql) (some u) db).executed = false) := by
  constructor
  · intro hs hv hw
    unfold Server.apiQuery
    cases db <;> simp [Server.strFalsy, hs, hv, hw]
  · intro hs hu hp
    have hp' : u ∉ priv := by simpa using hp
    unfold Server.apiExecute
    simp [Server.strFalsy, hs, hu, hp']

theorem c4_amended_witness :
    (Server.apiQuery (some "select 1") none (.ok 1)).executed = true ∧
      (Server.apiExecute Server.defaultPrivilegedUsers (some "select 1")
          (some "alice") (.ok 1)).status = 403 ∧
        (Server.apiExecute Server.defaultPrivilegedUsers (some "select 1")
            (some "alice") (.ok 1)).executed = false :=
  ⟨(c4_amended_read_execution "select 1" none (.ok 1)
      Server.defaultPrivilegedUsers "alice").1
        (by decide) (by decide) (by decide),
    (c4_amended_read_execution "select 1" none (.ok 1)
      Server.defaultPrivilegedUsers "alice").2
        (by decide) (by decide) (by decide)⟩

/-- C5 counterexample: a deny-list-matching statement from a
non-privileged identity on `/api/execute` is answered with the 403
authorization denial, not the claimed 400 validation rejection — the
privilege check runs first on that endpoint. -/
theorem c5_counterexample :
    Server.validateSqlQuery "select 1; drop table t" = false ∧
      (Server.apiExecute Server.defaultPrivilegedUsers
          (some "select 1; drop table t") (some "alice") (.ok 0)).status = 403 ∧
      (Server.apiExecute Server.defaultPrivilegedUsers
            (some "select 1; drop table t") (some "alice") (.ok 0)).reject =
        some .notPrivileged := by decide

/-- C5 amended: on `/api/execute` the privilege check precedes
validation, so any statement (deny-listed or not) from a non-privileged
identity yields the 403 authorization denial; on `/api/query`, where no
privilege gate exists, a deny-list match yields the 400 validation
rejection and is never executed. -/
theorem c5_amended_gate_order (priv : List String) (sql u : String)
    (userOpt : Option String) (db : Server.ExecOutcome) :
    (sql ≠ "" → u ≠ "" → priv.contains u = false →
        (Server.apiExecute priv (some sql) (some u) db).status = 403 ∧
          (Server.apiExecute priv (some sql) (some u) db).reject =
            some .notPrivileged ∧
          (Server.apiExecute priv (some sql) (some u) db).executed = false) ∧
      (sql ≠ "" → Server.validateSqlQuery sql = false →
        (Server.apiQuery (some sql) userOpt db).status = 400 ∧
          (Server.apiQuery (some sql) userOpt db).reject = some .invalidSql ∧
          (Server.apiQuery (some sql) userOpt db).executed = false) := by
  constructor
  · intro hs hu hp
    have hp' : u ∉ priv := by simpa using hp
    unfold Server.apiExecute
    simp [Server.strFalsy, hs, hu, hp']
  · intro hs hv
    unfold Server.apiQuery
    simp [Server.strFalsy, hs, hv]

theorem c5_amended_witness :
    ((Server.apiExecute Server.defaultPrivilegedUsers
          (some "select 1; drop table t") (some "alice") (.ok 0)).status = 403 ∧
        (Server.apiExecute Server.defaultPrivilegedUsers
            (some "select 1; drop table t") (some "alice") (.ok 0)).reject =
          some .notPrivileged ∧
        (Server.apiExecute Server.defaultPrivilegedUsers
            (some "select 1; drop table t") (some "alice") (.ok 0)).executed =
          false) ∧
      ((Server.apiQuery (some "select 1; drop table t") none (.ok 0)).status =
          400 ∧
        (Server.apiQuery (some "select 1; drop table t") none (.ok 0)).reject =
          some .invalidSql ∧
        (Server.apiQuery (some "select 1; drop table t") none
              (.ok 0)).executed = false) :=
  ⟨(c5_amended_gate_order Server.defaultPrivilegedUsers
        "select 1; drop table t" "alice" none (.ok 0)).1
      (by decide) (by decide) (by decide),
    (c5_amended_gate_order Server.defaultPrivilegedUsers
        "select 1; drop table t" "alice" none (.ok 0)).2
      (by decide) (by decide)⟩

/-- A 300-character driver message with no recognised category keyword. -/
def longDriverMessage : String := String.mk (List.replicate 300 'x')

set_option maxRecDepth 4000 in
/-- C6 counterexample: a generic driver error 300 characters long is
returned in full by the gateway sanitizer — the output is the untruncated
message behind a fixed prefix, refuting the truncated-excerpt claim. -/
theorem c6_counterexample :
    containsSub "password".data longDriverMessage.data = false ∧
      containsSub "timeout".data longDriverMessage.data = false ∧
      containsSub "does not exist".data longDriverMessage.data = false ∧
      longDriverMessage.length = 300 ∧
      Server.formatDatabaseError longDriverMessage =
        "Database error: " ++ longDriverMessage := by
  refine ⟨by decide, by decide, by decide, by decide, ?_⟩
  decide

/-- C6 amended: for driver messages matching none of the gateway's
specific categories, the gateway sanitizer returns the full message
behind the prefix `Database error: ` with no truncation; only the legacy
sanitizer truncates its fallback to 200 characters. -/
theorem c6_amended_generic_fallback (msg : String)
    (hp : containsSub "password".data msg.data = false)
    (ht : containsSub "timeout".data msg.data = false)
    (hd : containsSub "does not exist".data msg.data = false) :
    Server.formatDatabaseError msg = "Database error: " ++ msg ∧
      (containsSub "connection".data msg.data = false →
        containsSub "permission".data msg.data = false →
        Legacy.formatDatabaseError msg =
          "Database error: " ++ String.mk (msg.data.take 200)) := by
  constructor
  · unfold Server.formatDatabaseError
    simp [hp, ht, hd]
  · intro hc hperm
    unfold Legacy.formatDatabaseError
    simp [hp, ht, hc, hperm]

theorem c6_amended_witness :
    Server.formatDatabaseError "boom" = "Database error: " ++ "boom" ∧
      (containsSub "connection".data "boom".data = false →
        containsSub "permission".data "boom".data = false →
        Legacy.formatDatabaseError "boom" =
          "Database error: " ++ String.mk ("boom".data.take 200)) :=
  c6_amended_generic_fallback "boom" (by decide) (by decide) (by decide)

/-- C7 counterexample: this statement is Write-classified, yet
`/api/query` answers 400, not the claimed 403, because validation runs
before the write gate and the statement also matches the deny-list. -/
theorem c7_counterexample :
    Server.isWriteOperation "delete from t; drop table u" = true ∧
      (Server.apiQuery (some "delete from t; drop table u") (some "alice")
          (.ok 0)).status = 400 := by decide

/-- C7 amended: on `/api/query`, validator-rejected statements receive
400 and validator-accepted Write-classified statements receive 403,
neither executing; `/api/execute` answers 400 whenever the identity
field is absent. -/
theorem c7_amended_status_codes (sql : String) (userOpt sqlOpt : Option String)
    (db : Server.ExecOutcome) (priv : List String) :
    (sql ≠ "" → Server.validateSqlQuery sql = false →
        (Server.apiQuery (some sql) userOpt db).status = 400 ∧
          (Server.apiQuery (some sql) userOpt db).executed = false) ∧
      (sql ≠ "" → Server.validateSqlQuery sql = true →
        Server.isWriteOperation sql = true →
        (Server.apiQuery (some sql) userOpt db).status = 403 ∧
          (Server.apiQuery (some sql) userOpt db).executed = false) ∧
      ((Server.apiExecute priv sqlOpt none db).status = 400 ∧
        (Server.apiExecute priv sqlOpt none db).executed = false) := by
  refine ⟨?_, ?_, ?_⟩
  · intro hs hv
    unfold Server.apiQuery
    simp [Server.strFalsy, hs, hv]
  · intro hs hv hw
    unfold Server.apiQuery
    simp [Server.strFalsy, hs, hv, hw]
  · unfold Server.apiExecute
    split <;> simp [Server.strFalsy]

theorem c7_amended_witness :
    ((Server.apiQuery (some "select 1; drop table t") none (.ok 0)).status =
          400 ∧
        (Server.apiQuery (some "select 1; drop table t") none
            (.ok 0)).executed = false) ∧
      ((Server.apiQuery (some "delete from t") none (.ok 0)).status = 403 ∧
        (Server.apiQuery (some "delete from t") none (.ok 0)).executed =
          false) ∧
      ((Server.apiExecute [] none none (.ok 0)).status = 400 ∧
        (Server.apiExecute [] none none (.ok 0)).executed = false) :=
  ⟨(c7_amended_status_codes "select 1; drop table t" none none (.ok 0) []).1
      (by decide) (by decide),
    (c7_amended_status_codes "delete from t" none none (.ok 0) []).2.1
      (by decide) (by decide) (by decide),
    (c7_amended_status_codes "x" none none (.ok 0) []).2.2⟩

/-- C8 counterexample: one successful `/api/query` invocation emits two
console records (the middleware entry line plus the success line),
refuting the exactly-one-record-per-invocation claim. -/
theorem c8_counterexample :
    ((Server.apiQuery (some "select 1") (some "alice") (.ok 1)).logs).length =
      2 := by decide

/-- C8 amended: every invocation of either endpoint emits exactly one
entry-time middleware record, plus exactly one further outcome record
iff the statement was forwarded for execution; rejected and denied
requests produce no terminal-state record. -/
theorem c8_amended_log_discipline (priv : List String)
    (sqlOpt userOpt : Option String) (db : Server.ExecOutcome) :
    ((Server.apiQuery sqlOpt userOpt db).logs.head? = some .entry ∧
        (Server.apiQuery sqlOpt userOpt db).logs.length =
          (if (Server.apiQuery sqlOpt userOpt db).executed then 2 else 1)) ∧
      ((Server.apiExecute priv sqlOpt userOpt db).logs.head? = some .entry ∧
        (Server.apiExecute priv sqlOpt userOpt db).logs.length =
          (if (Server.apiExecute priv sqlOpt userOpt db).executed
           then 2 else 1)) := by
  constructor
  · unfold Server.apiQuery
    repeat' split
    all_goals simp_all
  · unfold Server.apiExecute
    repeat' split
    all_goals simp_all

/-- C9 counterexample: the two validators disagree on this statement
(the gateway accepts it, the legacy module rejects its `;grant` chain),
refuting the claimed input-by-input equivalence. -/
theorem c9_counterexample :
    ¬ (Server.validateSqlQuery "select 1; grant all on t to u" = true ↔
        Legacy.validateSqlQuery "select 1; grant all on t to u" = true) := by
  decide

/-- C9 amended: the two validators are incomparable — the gateway accepts
statements the legacy validator rejects (separator-then-grant chaining)
and rejects statements the legacy validator accepts (any double-dash
comment without `drop`). -/
theorem c9_amended_validators_incomparable :
    (∃ s : String, Server.validateSqlQuery s = true ∧
        Legacy.validateSqlQuery s = false) ∧
      (∃ s : String, Server.validateSqlQuery s = false ∧
        Legacy.validateSqlQuery s = true) :=
  ⟨⟨"select 1; grant all on t to u", by decide⟩,
    ⟨"select 1 -- note", by decide⟩⟩

/-- C10: a valid Read statement posted to `/api/query` with no identity
field at all is executed, and the success response reports
`executedBy = "unknown"`. -/
theorem c10_absent_identity_query (sql : String) (n : Nat)
    (hs : sql ≠ "") (hv : Server.validateSqlQuery sql = true)
    (hw : Server.isWriteOperation sql = false) :
    (Server.apiQuery (some sql) none (.ok n)).executed = true ∧
      (Server.apiQuery (some sql) none (.ok n)).executedBy = some "unknown" ∧
      (Server.apiQuery (some sql) none (.ok n)).status = 200 := by
  unfold Server.apiQuery
  simp [Server.strFalsy, hs, hv, hw]

theorem c10_witness :
    (Server.apiQuery (some "select 1") none (.ok 1)).executed = true ∧
      (Server.apiQuery (some "select 1") none (.ok 1)).executedBy =
        some "unknown" ∧
      (Server.apiQuery (some "select 1") none (.ok 1)).status = 200 :=
  c10_absent_identity_query "select 1" 1 (by decide) (by decide) (by decide)

end MCP
